import Mathlib

/-!
Verification development for the HubSpot portal property syncer
(`portal_property_syncer.py`).

The Python module is embedded shallowly:

* `Portal`, `PropertyGroup`, `ModelProperty` mirror the dataclass / SDK
  records the script manipulates.
* The remote HubSpot API is abstracted into `HubSpotEnv`, an oracle that
  decides, for each creation request, whether the call succeeds (`none`)
  or raises an exception with a detail string (`some detail`).
* Every creation call issued against the target portal is recorded in an
  explicit effect log (`List ApiCall`), so "creation attempt" is a
  first-class notion.
* Python dict comprehensions keyed by `name` are modelled by `byName`,
  which reproduces insertion order and last-write-wins semantics over an
  association list.
* `syncProperties` is the top-level operation; it builds the four
  name-indexed mappings and runs the four sequential loops of the source
  (`groupsForwardPass`, `groupsReversePass`, `propertiesForwardPass`,
  `propertiesReversePass`) via `syncPropertiesCore`.
* `preparePortal` is embedded with the identity-verification endpoint
  abstracted into a function from API key to the portal id the remote
  service reports, and with the list of issued request URLs returned as
  an explicit effect log.
-/

/-- Authenticated SDK client handle (`HubSpot(api_key=...)`). -/
structure HubSpot where
  api_key : String
deriving DecidableEq

/-- The `Portal` dataclass of the source. -/
structure Portal where
  portalId : Int
  name : String
  apiKey : String
  apiClient : Option HubSpot := none
deriving DecidableEq

/-- A property group record as returned by the HubSpot SDK
(the fields the script reads). -/
structure PropertyGroup where
  name : String
  label : String
  display_order : Int
  archived : Bool
deriving DecidableEq

/-- A property record (`ModelProperty`) as returned by the HubSpot SDK
(the fields the script reads). -/
structure ModelProperty where
  name : String
  label : String
  type : String
  field_type : String
  group_name : String
  description : String
  options : List String
  display_order : Int
  has_unique_value : Bool
  hidden : Bool
  form_field : Bool
  calculated : Bool
  external_options : Bool
  hubspot_defined : Bool
  referenced_object_type : String
  show_currency_symbol : Bool
deriving DecidableEq

/-- The scope decoration applied by `ResultMessages.addMessage`:
`f'{source.name}->{target.name} ({objectType}): {message}'`. -/
def formatMessage (objectType : String) (sourcePortal targetPortal : Portal)
    (message : String) : String :=
  sourcePortal.name ++ "->" ++ targetPortal.name ++ " (" ++ objectType ++ "): " ++ message

/-- The `ResultMessages` report collector. -/
structure ResultMessages where
  objectType : String
  sourcePortal : Portal
  targetPortal : Portal
  messages : List String
deriving DecidableEq

/-- `ResultMessages.__init__`. -/
def ResultMessages.init (objectType : String) (sourcePortal targetPortal : Portal) :
    ResultMessages :=
  ⟨objectType, sourcePortal, targetPortal, []⟩

/-- `ResultMessages.addMessage`. -/
def ResultMessages.addMessage (rm : ResultMessages) (message : String) : ResultMessages :=
  { rm with
    messages := rm.messages ++
      [formatMessage rm.objectType rm.sourcePortal rm.targetPortal message] }

/-- `ResultMessages.getMessages`. -/
def ResultMessages.getMessages (rm : ResultMessages) : List String :=
  rm.messages

/-- The payload of `groups_api.create` (`property_group_create={...}`). -/
structure PropertyGroupCreate where
  name : String
  label : String
  displayOrder : Int
  archived : Bool
deriving DecidableEq

/-- The payload of `core_api.create` (`property_create={...}`). -/
structure PropertyCreate where
  name : String
  label : String
  type : String
  fieldType : String
  groupName : String
  description : String
  options : List String
  displayOrder : Int
  hasUniqueValue : Bool
  hidden : Bool
  formField : Bool
  calculated : Bool
  externalOptions : Bool
  hubspotDefined : Bool
  referencedObjectType : String
  showCurrencySymbol : Bool
deriving DecidableEq

/-- The creation request built from a source property group
(`createPropertyGroupBasedOnOtherPropertyGroup`, lines 214-221). -/
def propertyGroupCreateOf (g : PropertyGroup) : PropertyGroupCreate :=
  ⟨g.name, g.label, g.display_order, g.archived⟩

/-- The creation request built from a source property
(`createPropertyBasedOnOtherProperty`, lines 242-263). -/
def propertyCreateOf (p : ModelProperty) : PropertyCreate :=
  ⟨p.name, p.label, p.type, p.field_type, p.group_name, p.description, p.options,
    p.display_order, p.has_unique_value, p.hidden, p.form_field, p.calculated,
    p.external_options, p.hubspot_defined, p.referenced_object_type,
    p.show_currency_symbol⟩

/-- A creation call issued against the target portal's API. -/
inductive ApiCall where
  | createPropertyGroup (objectType : String) (request : PropertyGroupCreate)
  | createProperty (objectType : String) (request : PropertyCreate)
deriving DecidableEq

/-- The remote platform's reaction to creation calls: `none` means the call
succeeds, `some detail` means it raises an exception rendering as `detail`. -/
structure HubSpotEnv where
  createPropertyGroupResult : String → PropertyGroupCreate → Option String
  createPropertyResult : String → PropertyCreate → Option String

/-- The environment in which every creation call succeeds. -/
def envAllOk : HubSpotEnv :=
  ⟨fun _ _ => none, fun _ _ => none⟩

/-- Whether a given creation call fails under an environment. -/
def callFails (env : HubSpotEnv) : ApiCall → Bool
  | ApiCall.createPropertyGroup objectType request =>
      (env.createPropertyGroupResult objectType request).isSome
  | ApiCall.createProperty objectType request =>
      (env.createPropertyResult objectType request).isSome

/-- Mutable state threaded through one `syncProperties` run: the report
collector plus the log of creation calls issued so far. -/
structure SyncState where
  resultMessages : ResultMessages
  apiCalls : List ApiCall
deriving DecidableEq

/-- Python's `str.startswith`. -/
def pyStartswith (s p : String) : Bool :=
  List.isPrefixOf p.data s.data

/-- Key membership in a name-indexed mapping (`name in mappingByName`). -/
def hasKey (d : List (String × α)) (k : String) : Bool :=
  d.any (fun p => p.1 == k)

/-- The keys of a mapping are pairwise distinct (true of every mapping the
script builds, since Python dicts have unique keys). -/
def NodupKeys (d : List (String × α)) : Prop :=
  (d.map Prod.fst).Nodup

/-- One step of building a Python dict: a repeated key overwrites the stored
value in place, a fresh key is appended. -/
def dictInsert (d : List (String × α)) (k : String) (v : α) : List (String × α) :=
  if hasKey d k then d.map (fun p => if p.1 == k then (k, v) else p) else d ++ [(k, v)]

/-- `{item.name: item for item in results}` — a name-indexed mapping with
Python-dict insertion order and last-write-wins semantics. -/
def byName (nameOf : α → String) (items : List α) : List (String × α) :=
  items.foldl (fun d x => dictInsert d (nameOf x) x) []

/-- Drop the entry (if any) stored under key `n`. -/
def removeKey (d : List (String × α)) (n : String) : List (String × α) :=
  d.filter (fun p => !(p.1 == n))

/-- Drop every entry stored under a platform-reserved (`hs_`-prefixed) key. -/
def removeReserved (d : List (String × α)) : List (String × α) :=
  d.filter (fun p => !(pyStartswith p.1 "hs_"))

/-- `createPropertyGroupBasedOnOtherPropertyGroup` (lines 205-225): issue the
creation call; on exception, append a failure report entry and return. -/
def createPropertyGroupBasedOnOtherPropertyGroup (env : HubSpotEnv) (st : SyncState)
    (targetPortal : Portal) (objectType : String)
    (otherPropertyGroup : PropertyGroup) : SyncState :=
  let request := propertyGroupCreateOf otherPropertyGroup
  let st' : SyncState :=
    { st with apiCalls := st.apiCalls ++ [ApiCall.createPropertyGroup objectType request] }
  match env.createPropertyGroupResult objectType request with
  | none => st'
  | some e =>
      { st' with
        resultMessages := st'.resultMessages.addMessage
          ("Failed creating new property group " ++ otherPropertyGroup.name ++ ": " ++ e) }

/-- `createPropertyBasedOnOtherProperty` (lines 228-267): a calculated
property is skipped with a manual-creation report entry; otherwise the
creation call is issued and, on exception, a failure report entry appended.
(The doubled space before the property name in the failure message is in the
source.) -/
def createPropertyBasedOnOtherProperty (env : HubSpotEnv) (st : SyncState)
    (targetPortal : Portal) (objectType : String)
    (otherProperty : ModelProperty) : SyncState :=
  if otherProperty.calculated then
    { st with
      resultMessages := st.resultMessages.addMessage
        ("Skipped property " ++ otherProperty.name ++
          ": it is a calculated property, create it manually.") }
  else
    let request := propertyCreateOf otherProperty
    let st' : SyncState :=
      { st with apiCalls := st.apiCalls ++ [ApiCall.createProperty objectType request] }
    match env.createPropertyResult objectType request with
    | none => st'
    | some e =>
        { st' with
          resultMessages := st'.resultMessages.addMessage
            ("Failed creating new property  " ++ otherProperty.name ++ ": " ++ e) }

/-- Loop body of the forward group pass (lines 107-125). -/
def forwardGroupStep (env : HubSpotEnv) (targetPortal : Portal) (objectType : String)
    (targetContactPropertyGroupsByName : List (String × PropertyGroup))
    (st : SyncState) (kv : String × PropertyGroup) : SyncState :=
  if pyStartswith kv.1 "hs_" then st
  else if hasKey targetContactPropertyGroupsByName kv.1 then st
  else createPropertyGroupBasedOnOtherPropertyGroup env st targetPortal objectType kv.2

/-- Loop body of the reverse group pass (lines 131-148). -/
def reverseGroupStep (sourceContactPropertyGroupsByName : List (String × PropertyGroup))
    (st : SyncState) (kv : String × PropertyGroup) : SyncState :=
  if pyStartswith kv.1 "hs_" then st
  else if hasKey sourceContactPropertyGroupsByName kv.1 then st
  else
    { st with
      resultMessages := st.resultMessages.addMessage
        ("property group " ++ kv.1 ++ " is only in target - delete it manually or sync other way") }

/-- Loop body of the forward property pass (lines 157-176). -/
def forwardPropertyStep (env : HubSpotEnv) (targetPortal : Portal) (objectType : String)
    (targetPropertiesByName : List (String × ModelProperty))
    (st : SyncState) (kv : String × ModelProperty) : SyncState :=
  if pyStartswith kv.1 "hs_" then st
  else if hasKey targetPropertiesByName kv.1 then st
  else createPropertyBasedOnOtherProperty env st targetPortal objectType kv.2

/-- Loop body of the reverse property pass (lines 182-198). -/
def reversePropertyStep (sourcePropertiesByName : List (String × ModelProperty))
    (st : SyncState) (kv : String × ModelProperty) : SyncState :=
  if pyStartswith kv.1 "hs_" then st
  else if hasKey sourcePropertiesByName kv.1 then st
  else
    { st with
      resultMessages := st.resultMessages.addMessage
        ("property " ++ kv.1 ++ " is only in target - delete it manually or sync other way") }

/-- The "Create missing" group loop. -/
def groupsForwardPass (env : HubSpotEnv) (targetPortal : Portal) (objectType : String)
    (targetContactPropertyGroupsByName : List (String × PropertyGroup))
    (st : SyncState)
    (sourceContactPropertyGroupsByName : List (String × PropertyGroup)) : SyncState :=
  sourceContactPropertyGroupsByName.foldl
    (forwardGroupStep env targetPortal objectType targetContactPropertyGroupsByName) st

/-- The "Report extra" group loop. -/
def groupsReversePass (sourceContactPropertyGroupsByName : List (String × PropertyGroup))
    (st : SyncState)
    (targetContactPropertyGroupsByName : List (String × PropertyGroup)) : SyncState :=
  targetContactPropertyGroupsByName.foldl
    (reverseGroupStep sourceContactPropertyGroupsByName) st

/-- The "Create missing" property loop. -/
def propertiesForwardPass (env : HubSpotEnv) (targetPortal : Portal) (objectType : String)
    (targetPropertiesByName : List (String × ModelProperty))
    (st : SyncState)
    (sourcePropertiesByName : List (String × ModelProperty)) : SyncState :=
  sourcePropertiesByName.foldl
    (forwardPropertyStep env targetPortal objectType targetPropertiesByName) st

/-- The "Report extra" property loop. -/
def propertiesReversePass (sourcePropertiesByName : List (String × ModelProperty))
    (st : SyncState)
    (targetPropertiesByName : List (String × ModelProperty)) : SyncState :=
  targetPropertiesByName.foldl
    (reversePropertyStep sourcePropertiesByName) st

/-- The body of `syncProperties` after the four fetches: the four sequential
loops of the source (lines 103-202), run on the name-indexed mappings. -/
def syncPropertiesCore (env : HubSpotEnv) (objectType : String) (targetPortal : Portal)
    (sourceContactPropertyGroupsByName targetContactPropertyGroupsByName :
      List (String × PropertyGroup))
    (sourcePropertiesByName targetPropertiesByName : List (String × ModelProperty))
    (st : SyncState) : SyncState :=
  let st1 := groupsForwardPass env targetPortal objectType
    targetContactPropertyGroupsByName st sourceContactPropertyGroupsByName
  let st2 := groupsReversePass sourceContactPropertyGroupsByName st1
    targetContactPropertyGroupsByName
  let st3 := propertiesForwardPass env targetPortal objectType
    targetPropertiesByName st2 sourcePropertiesByName
  let st4 := propertiesReversePass sourcePropertiesByName st3 targetPropertiesByName
  st4

/-- `syncProperties` viewed at the level of the four name-indexed mappings
(the level at which the reconciliation algorithm operates), started from a
fresh report collector and an empty call log. -/
def syncPropertiesOnMaps (env : HubSpotEnv) (objectType : String)
    (sourcePortal targetPortal : Portal)
    (sourceContactPropertyGroupsByName targetContactPropertyGroupsByName :
      List (String × PropertyGroup))
    (sourcePropertiesByName targetPropertiesByName : List (String × ModelProperty)) :
    SyncState :=
  syncPropertiesCore env objectType targetPortal
    sourceContactPropertyGroupsByName targetContactPropertyGroupsByName
    sourcePropertiesByName targetPropertiesByName
    ⟨ResultMessages.init objectType sourcePortal targetPortal, []⟩

/-- `syncProperties` (lines 67-202): the four fetch results are inputs; the
function indexes them by name and runs the reconciliation loops. -/
def syncProperties (env : HubSpotEnv) (objectType : String)
    (sourcePortal targetPortal : Portal)
    (sourcePropertyGroupResults : List PropertyGroup)
    (sourcePropertyResults : List ModelProperty)
    (targetPropertyGroupResults : List PropertyGroup)
    (targetPropertyResults : List ModelProperty) : SyncState :=
  syncPropertiesOnMaps env objectType sourcePortal targetPortal
    (byName PropertyGroup.name sourcePropertyGroupResults)
    (byName PropertyGroup.name targetPropertyGroupResults)
    (byName ModelProperty.name sourcePropertyResults)
    (byName ModelProperty.name targetPropertyResults)

/-- Failure modes of `preparePortal`: the `ValueError` raised for a missing
API key, and the `assert` comparing the verified portal id. -/
inductive PrepareError where
  | valueError (msg : String)
  | assertionError
deriving DecidableEq

/-- `preparePortal` (lines 52-64), with the identity-verification endpoint
abstracted into `me : apiKey -> portalId reported by the service` and the
issued request URLs returned as an explicit log.  Returns the (possibly
updated) portal, the failure if any, and the network calls made. -/
def preparePortal (me : String → Int) (portal : Portal) :
    Portal × Option PrepareError × List String :=
  if portal.apiKey = "" then
    (portal, some (PrepareError.valueError ("Missing API key for portal " ++ portal.name)), [])
  else
    let url := "https://api.hubapi.com/integrations/v1/me?hapikey=" ++ portal.apiKey
    let readPortalId := me portal.apiKey
    if readPortalId = portal.portalId then
      ({ portal with apiClient := some ⟨portal.apiKey⟩ }, none, [url])
    else
      (portal, some PrepareError.assertionError, [url])

/-! ### Per-item emissions of the four loops

Each loop body appends a (possibly empty) batch of report messages and of
creation calls that depends only on the item, the environment, and the
opposite-side mapping — never on what was accumulated before.  The `…Em`
and `…Ec` functions compute these batches; the `…_emits` lemmas prove the
loop bodies equal to "append the batch". -/

/-- Report messages emitted for one item of the forward group pass. -/
def forwardGroupEm (env : HubSpotEnv) (objectType : String)
    (targetByName : List (String × PropertyGroup))
    (ot : String) (sp tp : Portal) (kv : String × PropertyGroup) : List String :=
  if pyStartswith kv.1 "hs_" then []
  else if hasKey targetByName kv.1 then []
  else
    match env.createPropertyGroupResult objectType (propertyGroupCreateOf kv.2) with
    | none => []
    | some e =>
        [formatMessage ot sp tp
          ("Failed creating new property group " ++ kv.2.name ++ ": " ++ e)]

/-- Creation calls emitted for one item of the forward group pass. -/
def forwardGroupEc (objectType : String)
    (targetByName : List (String × PropertyGroup))
    (kv : String × PropertyGroup) : List ApiCall :=
  if pyStartswith kv.1 "hs_" then []
  else if hasKey targetByName kv.1 then []
  else [ApiCall.createPropertyGroup objectType (propertyGroupCreateOf kv.2)]

/-- Report messages emitted for one item of the reverse group pass. -/
def reverseGroupEm (sourceByName : List (String × PropertyGroup))
    (ot : String) (sp tp : Portal) (kv : String × PropertyGroup) : List String :=
  if pyStartswith kv.1 "hs_" then []
  else if hasKey sourceByName kv.1 then []
  else
    [formatMessage ot sp tp
      ("property group " ++ kv.1 ++ " is only in target - delete it manually or sync other way")]

/-- Report messages emitted for one item of the forward property pass. -/
def forwardPropertyEm (env : HubSpotEnv) (objectType : String)
    (targetByName : List (String × ModelProperty))
    (ot : String) (sp tp : Portal) (kv : String × ModelProperty) : List String :=
  if pyStartswith kv.1 "hs_" then []
  else if hasKey targetByName kv.1 then []
  else if kv.2.calculated then
    [formatMessage ot sp tp
      ("Skipped property " ++ kv.2.name ++ ": it is a calculated property, create it manually.")]
  else
    match env.createPropertyResult objectType (propertyCreateOf kv.2) with
    | none => []
    | some e =>
        [formatMessage ot sp tp
          ("Failed creating new property  " ++ kv.2.name ++ ": " ++ e)]

/-- Creation calls emitted for one item of the forward property pass. -/
def forwardPropertyEc (objectType : String)
    (targetByName : List (String × ModelProperty))
    (kv : String × ModelProperty) : List ApiCall :=
  if pyStartswith kv.1 "hs_" then []
  else if hasKey targetByName kv.1 then []
  else if kv.2.calculated then []
  else [ApiCall.createProperty objectType (propertyCreateOf kv.2)]

/-- Report messages emitted for one item of the reverse property pass. -/
def reversePropertyEm (sourceByName : List (String × ModelProperty))
    (ot : String) (sp tp : Portal) (kv : String × ModelProperty) : List String :=
  if pyStartswith kv.1 "hs_" then []
  else if hasKey sourceByName kv.1 then []
  else
    [formatMessage ot sp tp
      ("property " ++ kv.1 ++ " is only in target - delete it manually or sync other way")]

theorem forwardGroupStep_emits (env : HubSpotEnv) (tgP : Portal) (objectType : String)
    (tg : List (String × PropertyGroup)) (ot : String) (sp tp : Portal)
    (ms : List String) (cs : List ApiCall) (kv : String × PropertyGroup) :
    forwardGroupStep env tgP objectType tg ⟨⟨ot, sp, tp, ms⟩, cs⟩ kv =
      ⟨⟨ot, sp, tp, ms ++ forwardGroupEm env objectType tg ot sp tp kv⟩,
        cs ++ forwardGroupEc objectType tg kv⟩ := by
  unfold forwardGroupStep forwardGroupEm forwardGroupEc
    createPropertyGroupBasedOnOtherPropertyGroup
  by_cases h1 : pyStartswith kv.1 "hs_" = true
  · simp [h1]
  · by_cases h2 : hasKey tg kv.1 = true
    · simp [h1, h2]
    · cases h3 : env.createPropertyGroupResult objectType (propertyGroupCreateOf kv.2) with
      | none => simp [h1, h2, h3]
      | some e => simp [h1, h2, h3, ResultMessages.addMessage]

theorem reverseGroupStep_emits (sg : List (String × PropertyGroup)) (ot : String)
    (sp tp : Portal) (ms : List String) (cs : List ApiCall)
    (kv : String × PropertyGroup) :
    reverseGroupStep sg ⟨⟨ot, sp, tp, ms⟩, cs⟩ kv =
      ⟨⟨ot, sp, tp, ms ++ reverseGroupEm sg ot sp tp kv⟩, cs ++ ([] : List ApiCall)⟩ := by
  unfold reverseGroupStep reverseGroupEm
  by_cases h1 : pyStartswith kv.1 "hs_" = true
  · simp [h1]
  · by_cases h2 : hasKey sg kv.1 = true
    · simp [h1, h2]
    · simp [h1, h2, ResultMessages.addMessage]

theorem forwardPropertyStep_emits (env : HubSpotEnv) (tgP : Portal) (objectType : String)
    (tg : List (String × ModelProperty)) (ot : String) (sp tp : Portal)
    (ms : List String) (cs : List ApiCall) (kv : String × ModelProperty) :
    forwardPropertyStep env tgP objectType tg ⟨⟨ot, sp, tp, ms⟩, cs⟩ kv =
      ⟨⟨ot, sp, tp, ms ++ forwardPropertyEm env objectType tg ot sp tp kv⟩,
        cs ++ forwardPropertyEc objectType tg kv⟩ := by
  unfold forwardPropertyStep forwardPropertyEm forwardPropertyEc
    createPropertyBasedOnOtherProperty
  by_cases h1 : pyStartswith kv.1 "hs_" = true
  · simp [h1]
  · by_cases h2 : hasKey tg kv.1 = true
    · simp [h1, h2]
    · by_cases h4 : kv.2.calculated = true
      · simp [h1, h2, h4, ResultMessages.addMessage]
      · cases h3 : env.createPropertyResult objectType (propertyCreateOf kv.2) with
        | none => simp [h1, h2, h4, h3]
        | some e => simp [h1, h2, h4, h3, ResultMessages.addMessage]

theorem reversePropertyStep_emits (sg : List (String × ModelProperty)) (ot : String)
    (sp tp : Portal) (ms : List String) (cs : List ApiCall)
    (kv : String × ModelProperty) :
    reversePropertyStep sg ⟨⟨ot, sp, tp, ms⟩, cs⟩ kv =
      ⟨⟨ot, sp, tp, ms ++ reversePropertyEm sg ot sp tp kv⟩, cs ++ ([] : List ApiCall)⟩ := by
  unfold reversePropertyStep reversePropertyEm
  by_cases h1 : pyStartswith kv.1 "hs_" = true
  · simp [h1]
  · by_cases h2 : hasKey sg kv.1 = true
    · simp [h1, h2]
    · simp [h1, h2, ResultMessages.addMessage]

/-- A fold over a loop body that appends per-item batches appends the
concatenation of all the batches. -/
theorem foldl_emits {α : Type} {step : SyncState → α → SyncState}
    {em : String → Portal → Portal → α → List String} {ec : α → List ApiCall}
    (h : ∀ ot sp tp ms cs x, step ⟨⟨ot, sp, tp, ms⟩, cs⟩ x =
        ⟨⟨ot, sp, tp, ms ++ em ot sp tp x⟩, cs ++ ec x⟩)
    (l : List α) (ot : String) (sp tp : Portal) (ms : List String) (cs : List ApiCall) :
    l.foldl step ⟨⟨ot, sp, tp, ms⟩, cs⟩ =
      ⟨⟨ot, sp, tp, ms ++ (l.map (em ot sp tp)).flatten⟩, cs ++ (l.map ec).flatten⟩ := by
  induction l generalizing ms cs with
  | nil => simp
  | cons x xs ih =>
      simp only [List.foldl_cons, h, List.map_cons, List.flatten_cons, ih, List.append_assoc]

theorem groupsForwardPass_eq (env : HubSpotEnv) (tgP : Portal) (objectType : String)
    (tg sg : List (String × PropertyGroup)) (ot : String) (sp tp : Portal)
    (ms : List String) (cs : List ApiCall) :
    groupsForwardPass env tgP objectType tg ⟨⟨ot, sp, tp, ms⟩, cs⟩ sg =
      ⟨⟨ot, sp, tp, ms ++ (sg.map (forwardGroupEm env objectType tg ot sp tp)).flatten⟩,
        cs ++ (sg.map (forwardGroupEc objectType tg)).flatten⟩ :=
  foldl_emits (forwardGroupStep_emits env tgP objectType tg) sg ot sp tp ms cs

theorem groupsReversePass_eq (sg tg : List (String × PropertyGroup)) (ot : String)
    (sp tp : Portal) (ms : List String) (cs : List ApiCall) :
    groupsReversePass sg ⟨⟨ot, sp, tp, ms⟩, cs⟩ tg =
      ⟨⟨ot, sp, tp, ms ++ (tg.map (reverseGroupEm sg ot sp tp)).flatten⟩, cs⟩ := by
  have h := @foldl_emits (String × PropertyGroup) (reverseGroupStep sg)
    (reverseGroupEm sg) (fun _ => [])
    (fun ot sp tp ms cs x => reverseGroupStep_emits sg ot sp tp ms cs x) tg ot sp tp ms cs
  simpa using h

theorem propertiesForwardPass_eq (env : HubSpotEnv) (tgP : Portal) (objectType : String)
    (tg sg : List (String × ModelProperty)) (ot : String) (sp tp : Portal)
    (ms : List String) (cs : List ApiCall) :
    propertiesForwardPass env tgP objectType tg ⟨⟨ot, sp, tp, ms⟩, cs⟩ sg =
      ⟨⟨ot, sp, tp, ms ++ (sg.map (forwardPropertyEm env objectType tg ot sp tp)).flatten⟩,
        cs ++ (sg.map (forwardPropertyEc objectType tg)).flatten⟩ :=
  foldl_emits (forwardPropertyStep_emits env tgP objectType tg) sg ot sp tp ms cs

theorem propertiesReversePass_eq (sg tg : List (String × ModelProperty)) (ot : String)
    (sp tp : Portal) (ms : List String) (cs : List ApiCall) :
    propertiesReversePass sg ⟨⟨ot, sp, tp, ms⟩, cs⟩ tg =
      ⟨⟨ot, sp, tp, ms ++ (tg.map (reversePropertyEm sg ot sp tp)).flatten⟩, cs⟩ := by
  have h := @foldl_emits (String × ModelProperty) (reversePropertyStep sg)
    (reversePropertyEm sg) (fun _ => [])
    (fun ot sp tp ms cs x => reversePropertyStep_emits sg ot sp tp ms cs x) tg ot sp tp ms cs
  simpa using h

/-- Normal form of one reconciliation run: the report is the concatenation
of the four passes' per-item message batches, the call log the concatenation
of the two forward passes' per-item call batches. -/
theorem syncPropertiesOnMaps_eq (env : HubSpotEnv) (objectType : String)
    (sourcePortal targetPortal : Portal)
    (sg tg : List (String × PropertyGroup)) (spd tpd : List (String × ModelProperty)) :
    syncPropertiesOnMaps env objectType sourcePortal targetPortal sg tg spd tpd =
      ⟨⟨objectType, sourcePortal, targetPortal,
          (sg.map (forwardGroupEm env objectType tg objectType sourcePortal targetPortal)).flatten
          ++ ((tg.map (reverseGroupEm sg objectType sourcePortal targetPortal)).flatten
          ++ ((spd.map (forwardPropertyEm env objectType tpd objectType sourcePortal targetPortal)).flatten
          ++ (tpd.map (reversePropertyEm spd objectType sourcePortal targetPortal)).flatten))⟩,
        (sg.map (forwardGroupEc objectType tg)).flatten
          ++ (spd.map (forwardPropertyEc objectType tpd)).flatten⟩ := by
  unfold syncPropertiesOnMaps syncPropertiesCore ResultMessages.init
  simp only [groupsForwardPass_eq, groupsReversePass_eq, propertiesForwardPass_eq,
    propertiesReversePass_eq, List.nil_append, List.append_assoc]

theorem hasKey_cons {α : Type} (p : String × α) (d : List (String × α)) (k : String) :
    hasKey (p :: d) k = (p.1 == k || hasKey d k) := by
  simp [hasKey]

theorem hasKey_eq_false_iff {α : Type} {d : List (String × α)} {k : String} :
    hasKey d k = false ↔ ∀ kv ∈ d, kv.1 ≠ k := by
  simp [hasKey, List.any_eq_false]

theorem removeKey_eq_self {α : Type} {d : List (String × α)} {n : String}
    (h : hasKey d n = false) : removeKey d n = d := by
  rw [removeKey, List.filter_eq_self]
  intro p hp
  simpa using (hasKey_eq_false_iff.mp h) p hp

theorem removeKey_cons {α : Type} (p : String × α) (d : List (String × α)) (n : String) :
    removeKey (p :: d) n =
      if p.1 == n then removeKey d n else p :: removeKey d n := by
  rw [removeKey, List.filter_cons]
  cases hb : (p.1 == n) <;> simp [hb, removeKey]

theorem removeReserved_cons {α : Type} (p : String × α) (d : List (String × α)) :
    removeReserved (p :: d) =
      if pyStartswith p.1 "hs_" then removeReserved d else p :: removeReserved d := by
  rw [removeReserved, List.filter_cons]
  cases hb : pyStartswith p.1 "hs_" <;> simp [hb, removeReserved]

theorem hasKey_removeKey {α : Type} (d : List (String × α)) (n k : String) (h : k ≠ n) :
    hasKey (removeKey d n) k = hasKey d k := by
  induction d with
  | nil => rfl
  | cons p d ih =>
      rw [removeKey_cons]
      cases hb : (p.1 == n) with
      | true =>
          have hpk : (p.1 == k) = false := by
            have h1 : p.1 = n := by simpa using hb
            simp only [h1, beq_eq_false_iff_ne, ne_eq]
            exact fun hh => h hh.symm
          simp [hb, ih, hasKey_cons, hpk]
      | false => simp [hb, hasKey_cons, ih]

theorem hasKey_removeReserved {α : Type} (d : List (String × α)) (k : String)
    (h : pyStartswith k "hs_" = false) :
    hasKey (removeReserved d) k = hasKey d k := by
  induction d with
  | nil => rfl
  | cons p d ih =>
      rw [removeReserved_cons]
      cases hb : pyStartswith p.1 "hs_" with
      | true =>
          have hpk : (p.1 == k) = false := by
            simp only [beq_eq_false_iff_ne, ne_eq]
            intro hh
            rw [hh, h] at hb
            exact Bool.false_ne_true hb
          simp [hb, ih, hasKey_cons, hpk]
      | false => simp [hb, hasKey_cons, ih]

theorem exists_split_of_hasKey {α : Type} {d : List (String × α)} {n : String}
    (hnd : NodupKeys d) (h : hasKey d n = true) :
    ∃ L1 v L2, d = L1 ++ (n, v) :: L2 ∧ hasKey L1 n = false ∧ hasKey L2 n = false ∧
      removeKey d n = L1 ++ L2 ∧ List.lookup n d = some v := by
  induction d with
  | nil => simp [hasKey] at h
  | cons p d ih =>
      obtain ⟨k2, v2⟩ := p
      by_cases hp : k2 = n
      · have hk : ((k2, v2).1 == n) = true := by simpa using hp
        have hdn : hasKey d n = false := by
          rw [NodupKeys, List.map_cons, List.nodup_cons] at hnd
          rw [hasKey_eq_false_iff]
          intro kv hm he
          have hmem : kv.1 ∈ List.map Prod.fst d := List.mem_map_of_mem Prod.fst hm
          rw [he, ← hp] at hmem
          exact hnd.1 hmem
        refine ⟨[], v2, d, ?_, rfl, hdn, ?_, ?_⟩
        · simp [hp]
        · rw [removeKey_cons]
          simp [hk, removeKey_eq_self hdn]
        · simp [List.lookup, hp]
      · have hk : ((k2, v2).1 == n) = false := by simpa using hp
        have hdn : hasKey d n = true := by
          rw [hasKey_cons, hk, Bool.false_or] at h
          exact h
        have hnd2 : NodupKeys d := by
          rw [NodupKeys, List.map_cons, List.nodup_cons] at hnd
          exact hnd.2
        obtain ⟨L1, v, L2, he, hL1, hL2, hrk, hlk⟩ := ih hnd2 hdn
        refine ⟨(k2, v2) :: L1, v, L2, by simp [he], ?_, hL2, ?_, ?_⟩
        · rw [hasKey_cons, hk, Bool.false_or]
          exact hL1
        · rw [removeKey_cons]
          simp [hk, hrk]
        · have hnk : (n == k2) = false := by
            simp only [beq_eq_false_iff_ne, ne_eq]
            exact fun hh => hp hh.symm
          simp only [List.lookup, hnk]
          exact hlk

theorem flatten_map_congr {α β : Type} {d : List α} {f g : α → List β}
    (h : ∀ x ∈ d, f x = g x) : (d.map f).flatten = (d.map g).flatten := by
  rw [List.map_congr_left h]

/-- Items selected by `P` emit nothing, the rest emit the same with `g`:
flattening over the list equals flattening `g` over the `P`-filtered list. -/
theorem flatten_map_filter_eq {α β : Type} (P : α → Bool) (f g : α → List β)
    (d : List α)
    (h1 : ∀ x ∈ d, P x = true → f x = [])
    (h2 : ∀ x ∈ d, P x = false → f x = g x) :
    (d.map f).flatten = ((d.filter (fun x => !(P x))).map g).flatten := by
  induction d with
  | nil => rfl
  | cons p d ih =>
      rw [List.map_cons, List.flatten_cons, List.filter_cons]
      have ihr := ih (fun x hm hh => h1 x (List.mem_cons_of_mem p hm) hh)
        (fun x hm hh => h2 x (List.mem_cons_of_mem p hm) hh)
      cases hP : P p with
      | true =>
          rw [h1 p (List.mem_cons_self p d) hP]
          simp only [hP, Bool.not_true, List.nil_append]
          simpa using ihr
      | false =>
          rw [h2 p (List.mem_cons_self p d) hP]
          simp only [hP, Bool.not_false, if_true, List.map_cons, List.flatten_cons]
          rw [ihr]

theorem flatten_length_add {α β : Type} (f f0 : α → List String) (g : α → List β)
    (q : β → Bool)
    (h : ∀ x, (f x).length = (f0 x).length + ((g x).filter q).length) (l : List α) :
    ((l.map f).flatten).length =
      ((l.map f0).flatten).length + (((l.map g).flatten).filter q).length := by
  induction l with
  | nil => rfl
  | cons x xs ih =>
      simp only [List.map_cons, List.flatten_cons, List.length_append, List.filter_append,
        ih, h x]
      omega

theorem forwardGroupEm_congr (env : HubSpotEnv) (objectType : String)
    (tg1 tg2 : List (String × PropertyGroup)) (ot : String) (sp tp : Portal)
    (kv : String × PropertyGroup) (h : hasKey tg1 kv.1 = hasKey tg2 kv.1) :
    forwardGroupEm env objectType tg1 ot sp tp kv =
      forwardGroupEm env objectType tg2 ot sp tp kv := by
  unfold forwardGroupEm
  rw [h]

theorem forwardGroupEc_congr (objectType : String)
    (tg1 tg2 : List (String × PropertyGroup)) (kv : String × PropertyGroup)
    (h : hasKey tg1 kv.1 = hasKey tg2 kv.1) :
    forwardGroupEc objectType tg1 kv = forwardGroupEc objectType tg2 kv := by
  unfold forwardGroupEc
  rw [h]

theorem reverseGroupEm_congr (sg1 sg2 : List (String × PropertyGroup)) (ot : String)
    (sp tp : Portal) (kv : String × PropertyGroup)
    (h : hasKey sg1 kv.1 = hasKey sg2 kv.1) :
    reverseGroupEm sg1 ot sp tp kv = reverseGroupEm sg2 ot sp tp kv := by
  unfold reverseGroupEm
  rw [h]

theorem forwardPropertyEm_congr (env : HubSpotEnv) (objectType : String)
    (tg1 tg2 : List (String × ModelProperty)) (ot : String) (sp tp : Portal)
    (kv : String × ModelProperty) (h : hasKey tg1 kv.1 = hasKey tg2 kv.1) :
    forwardPropertyEm env objectType tg1 ot sp tp kv =
      forwardPropertyEm env objectType tg2 ot sp tp kv := by
  unfold forwardPropertyEm
  rw [h]

theorem forwardPropertyEc_congr (objectType : String)
    (tg1 tg2 : List (String × ModelProperty)) (kv : String × ModelProperty)
    (h : hasKey tg1 kv.1 = hasKey tg2 kv.1) :
    forwardPropertyEc objectType tg1 kv = forwardPropertyEc objectType tg2 kv := by
  unfold forwardPropertyEc
  rw [h]

theorem reversePropertyEm_congr (sg1 sg2 : List (String × ModelProperty)) (ot : String)
    (sp tp : Portal) (kv : String × ModelProperty)
    (h : hasKey sg1 kv.1 = hasKey sg2 kv.1) :
    reversePropertyEm sg1 ot sp tp kv = reversePropertyEm sg2 ot sp tp kv := by
  unfold reversePropertyEm
  rw [h]

theorem forwardGroupEm_reserved (env : HubSpotEnv) (objectType : String)
    (tg : List (String × PropertyGroup)) (ot : String) (sp tp : Portal)
    (kv : String × PropertyGroup) (h : pyStartswith kv.1 "hs_" = true) :
    forwardGroupEm env objectType tg ot sp tp kv = [] := by
  unfold forwardGroupEm
  simp [h]

theorem forwardGroupEc_reserved (objectType : String)
    (tg : List (String × PropertyGroup)) (kv : String × PropertyGroup)
    (h : pyStartswith kv.1 "hs_" = true) :
    forwardGroupEc objectType tg kv = [] := by
  unfold forwardGroupEc
  simp [h]

theorem reverseGroupEm_reserved (sg : List (String × PropertyGroup)) (ot : String)
    (sp tp : Portal) (kv : String × PropertyGroup)
    (h : pyStartswith kv.1 "hs_" = true) :
    reverseGroupEm sg ot sp tp kv = [] := by
  unfold reverseGroupEm
  simp [h]

theorem forwardPropertyEm_reserved (env : HubSpotEnv) (objectType : String)
    (tg : List (String × ModelProperty)) (ot : String) (sp tp : Portal)
    (kv : String × ModelProperty) (h : pyStartswith kv.1 "hs_" = true) :
    forwardPropertyEm env objectType tg ot sp tp kv = [] := by
  unfold forwardPropertyEm
  simp [h]

theorem forwardPropertyEc_reserved (objectType : String)
    (tg : List (String × ModelProperty)) (kv : String × ModelProperty)
    (h : pyStartswith kv.1 "hs_" = true) :
    forwardPropertyEc objectType tg kv = [] := by
  unfold forwardPropertyEc
  simp [h]

theorem reversePropertyEm_reserved (sg : List (String × ModelProperty)) (ot : String)
    (sp tp : Portal) (kv : String × ModelProperty)
    (h : pyStartswith kv.1 "hs_" = true) :
    reversePropertyEm sg ot sp tp kv = [] := by
  unfold reversePropertyEm
  simp [h]

theorem forwardGroupEm_present (env : HubSpotEnv) (objectType : String)
    (tg : List (String × PropertyGroup)) (ot : String) (sp tp : Portal)
    (kv : String × PropertyGroup) (h : hasKey tg kv.1 = true) :
    forwardGroupEm env objectType tg ot sp tp kv = [] := by
  unfold forwardGroupEm
  simp [h]

theorem forwardGroupEc_present (objectType : String)
    (tg : List (String × PropertyGroup)) (kv : String × PropertyGroup)
    (h : hasKey tg kv.1 = true) :
    forwardGroupEc objectType tg kv = [] := by
  unfold forwardGroupEc
  simp [h]

theorem reverseGroupEm_present (sg : List (String × PropertyGroup)) (ot : String)
    (sp tp : Portal) (kv : String × PropertyGroup) (h : hasKey sg kv.1 = true) :
    reverseGroupEm sg ot sp tp kv = [] := by
  unfold reverseGroupEm
  simp [h]

theorem forwardPropertyEm_present (env : HubSpotEnv) (objectType : String)
    (tg : List (String × ModelProperty)) (ot : String) (sp tp : Portal)
    (kv : String × ModelProperty) (h : hasKey tg kv.1 = true) :
    forwardPropertyEm env objectType tg ot sp tp kv = [] := by
  unfold forwardPropertyEm
  simp [h]

theorem forwardPropertyEc_present (objectType : String)
    (tg : List (String × ModelProperty)) (kv : String × ModelProperty)
    (h : hasKey tg kv.1 = true) :
    forwardPropertyEc objectType tg kv = [] := by
  unfold forwardPropertyEc
  simp [h]

theorem reversePropertyEm_present (sg : List (String × ModelProperty)) (ot : String)
    (sp tp : Portal) (kv : String × ModelProperty) (h : hasKey sg kv.1 = true) :
    reversePropertyEm sg ot sp tp kv = [] := by
  unfold reversePropertyEm
  simp [h]

/-- Specialisation of `flatten_map_filter_eq` to dropping reserved keys. -/
theorem flatten_map_removeReserved_eq {α β : Type} (f g : String × α → List β)
    (d : List (String × α))
    (h1 : ∀ kv ∈ d, pyStartswith kv.1 "hs_" = true → f kv = [])
    (h2 : ∀ kv ∈ d, pyStartswith kv.1 "hs_" = false → f kv = g kv) :
    (d.map f).flatten = ((removeReserved d).map g).flatten := by
  have h := flatten_map_filter_eq (fun kv => pyStartswith kv.1 "hs_") f g d h1 h2
  simpa [removeReserved] using h

/-- Specialisation of `flatten_map_filter_eq` to dropping the key `n`. -/
theorem flatten_map_removeKey_eq {α β : Type} (n : String) (f g : String × α → List β)
    (d : List (String × α))
    (h1 : ∀ kv ∈ d, kv.1 = n → f kv = [])
    (h2 : ∀ kv ∈ d, ¬ kv.1 = n → f kv = g kv) :
    (d.map f).flatten = ((removeKey d n).map g).flatten := by
  have h := flatten_map_filter_eq (fun kv => kv.1 == n) f g d
    (fun kv hm hh => h1 kv hm (by simpa using hh))
    (fun kv hm hh => h2 kv hm (by simpa using hh))
  simpa [removeKey] using h

/-- C7: for every account whose credential is empty, `preparePortal` fails
with the configuration error (`ValueError` naming the portal) and issues no
network call at all: the returned request log is empty and the portal is
left untouched. -/
theorem claim_C7 (me : String → Int) (portal : Portal) (h : portal.apiKey = "") :
    preparePortal me portal =
      (portal,
        some (PrepareError.valueError ("Missing API key for portal " ++ portal.name)),
        []) := by
  unfold preparePortal
  simp [h]

theorem claim_C7_witness :
    (Portal.mk 111111 "portal1" "" none).apiKey = "" ∧
    preparePortal (fun _ => 111111) (Portal.mk 111111 "portal1" "" none) =
      (Portal.mk 111111 "portal1" "" none,
        some (PrepareError.valueError "Missing API key for portal portal1"), []) :=
  ⟨rfl, claim_C7 (fun _ => 111111) (Portal.mk 111111 "portal1" "" none) rfl⟩

/-- C8: when the portal id the verification service reports for the
credential differs from the caller-supplied id, `preparePortal` fails with
the fatal assertion after the single verification request, and no client
handle is bound: the portal comes back unchanged (`apiClient` as before). -/
theorem claim_C8 (me : String → Int) (portal : Portal) (h1 : ¬ portal.apiKey = "")
    (h2 : ¬ me portal.apiKey = portal.portalId) :
    preparePortal me portal =
      (portal, some PrepareError.assertionError,
        ["https://api.hubapi.com/integrations/v1/me?hapikey=" ++ portal.apiKey]) ∧
    (preparePortal me portal).1.apiClient = portal.apiClient := by
  constructor <;> simp [preparePortal, h1, h2]

theorem claim_C8_witness :
    (¬ (Portal.mk 111111 "portal1" "key1" none).apiKey = "") ∧
    (¬ (fun (_ : String) => (222222 : Int)) (Portal.mk 111111 "portal1" "key1" none).apiKey
        = (Portal.mk 111111 "portal1" "key1" none).portalId) ∧
    (preparePortal (fun _ => 222222) (Portal.mk 111111 "portal1" "key1" none) =
      (Portal.mk 111111 "portal1" "key1" none, some PrepareError.assertionError,
        ["https://api.hubapi.com/integrations/v1/me?hapikey=key1"]) ∧
      (preparePortal (fun _ => 222222) (Portal.mk 111111 "portal1" "key1" none)).1.apiClient
        = (Portal.mk 111111 "portal1" "key1" none).apiClient) :=
  ⟨by decide, by decide,
    claim_C8 (fun _ => 222222) (Portal.mk 111111 "portal1" "key1" none)
      (by decide) (by decide)⟩

/-- C4: platform-reserved (`hs_`-prefixed) names contribute nothing to a
run: dropping every reserved-keyed entry from all four name-indexed
mappings leaves the entire outcome of `syncProperties` — the report and the
creation-call log, across both the group and the property passes, forward
and reverse — unchanged.  Hence a reserved name present on either side
produces no report entry and no creation call. -/
theorem claim_C4 (env : HubSpotEnv) (objectType : String)
    (sourcePortal targetPortal : Portal)
    (sg tg : List (String × PropertyGroup)) (spd tpd : List (String × ModelProperty)) :
    syncPropertiesOnMaps env objectType sourcePortal targetPortal sg tg spd tpd =
      syncPropertiesOnMaps env objectType sourcePortal targetPortal
        (removeReserved sg) (removeReserved tg) (removeReserved spd)
        (removeReserved tpd) := by
  rw [syncPropertiesOnMaps_eq, syncPropertiesOnMaps_eq]
  have e1 : (sg.map (forwardGroupEm env objectType tg objectType sourcePortal targetPortal)).flatten
      = ((removeReserved sg).map
          (forwardGroupEm env objectType (removeReserved tg) objectType sourcePortal targetPortal)).flatten :=
    flatten_map_removeReserved_eq _ _ sg
      (fun kv _ hh => forwardGroupEm_reserved env objectType tg objectType
        sourcePortal targetPortal kv hh)
      (fun kv _ hh => forwardGroupEm_congr env objectType tg (removeReserved tg)
        objectType sourcePortal targetPortal kv
        ((hasKey_removeReserved tg kv.1 hh).symm))
  have e2 : (tg.map (reverseGroupEm sg objectType sourcePortal targetPortal)).flatten
      = ((removeReserved tg).map
          (reverseGroupEm (removeReserved sg) objectType sourcePortal targetPortal)).flatten :=
    flatten_map_removeReserved_eq _ _ tg
      (fun kv _ hh => reverseGroupEm_reserved sg objectType sourcePortal targetPortal kv hh)
      (fun kv _ hh => reverseGroupEm_congr sg (removeReserved sg)
        objectType sourcePortal targetPortal kv
        ((hasKey_removeReserved sg kv.1 hh).symm))
  have e3 : (spd.map (forwardPropertyEm env objectType tpd objectType sourcePortal targetPortal)).flatten
      = ((removeReserved spd).map
          (forwardPropertyEm env objectType (removeReserved tpd) objectType sourcePortal targetPortal)).flatten :=
    flatten_map_removeReserved_eq _ _ spd
      (fun kv _ hh => forwardPropertyEm_reserved env objectType tpd objectType
        sourcePortal targetPortal kv hh)
      (fun kv _ hh => forwardPropertyEm_congr env objectType tpd (removeReserved tpd)
        objectType sourcePortal targetPortal kv
        ((hasKey_removeReserved tpd kv.1 hh).symm))
  have e4 : (tpd.map (reversePropertyEm spd objectType sourcePortal targetPortal)).flatten
      = ((removeReserved tpd).map
          (reversePropertyEm (removeReserved spd) objectType sourcePortal targetPortal)).flatten :=
    flatten_map_removeReserved_eq _ _ tpd
      (fun kv _ hh => reversePropertyEm_reserved spd objectType sourcePortal targetPortal kv hh)
      (fun kv _ hh => reversePropertyEm_congr spd (removeReserved spd)
        objectType sourcePortal targetPortal kv
        ((hasKey_removeReserved spd kv.1 hh).symm))
  have e5 : (sg.map (forwardGroupEc objectType tg)).flatten
      = ((removeReserved sg).map (forwardGroupEc objectType (removeReserved tg))).flatten :=
    flatten_map_removeReserved_eq _ _ sg
      (fun kv _ hh => forwardGroupEc_reserved objectType tg kv hh)
      (fun kv _ hh => forwardGroupEc_congr objectType tg (removeReserved tg) kv
        ((hasKey_removeReserved tg kv.1 hh).symm))
  have e6 : (spd.map (forwardPropertyEc objectType tpd)).flatten
      = ((removeReserved spd).map (forwardPropertyEc objectType (removeReserved tpd))).flatten :=
    flatten_map_removeReserved_eq _ _ spd
      (fun kv _ hh => forwardPropertyEc_reserved objectType tpd kv hh)
      (fun kv _ hh => forwardPropertyEc_congr objectType tpd (removeReserved tpd) kv
        ((hasKey_removeReserved tpd kv.1 hh).symm))
  rw [e1, e2, e3, e4, e5, e6]

/-- Concrete fixtures used by witnesses and counterexamples. -/
def portalA : Portal := ⟨111111, "portal1", "key1", none⟩

def portalB : Portal := ⟨222222, "portal2", "key2", none⟩

def groupA : PropertyGroup := ⟨"a", "Group A", 1, false⟩

def groupHsB : PropertyGroup := ⟨"hs_b", "Group B", 2, false⟩

def groupC : PropertyGroup := ⟨"c", "Group C", 3, false⟩

def propP1 : ModelProperty :=
  ⟨"p1", "P1", "string", "text", "a", "", [], 1, false, false, true, false, false,
    false, "", false⟩

def propP2 : ModelProperty :=
  ⟨"p2", "P2", "number", "calculation_score", "a", "", [], 2, false, false, true, true,
    false, false, "", false⟩

def propP3 : ModelProperty :=
  ⟨"p3", "P3", "string", "text", "a", "", [], 3, false, false, true, false, false,
    false, "", false⟩

/-- The environment in which every creation call raises an exception whose
detail renders as "boom". -/
def envFailAll : HubSpotEnv :=
  ⟨fun _ _ => some "boom", fun _ _ => some "boom"⟩

/-- C5: a name present in both the source and the target mapping contributes
nothing to a run — dropping it from both sides leaves the report and the
creation-call log of `syncProperties` completely unchanged, whatever the two
stored objects' other attributes are.  Stated for a group name `n` and a
property name `m`. -/
theorem claim_C5 (env : HubSpotEnv) (objectType : String)
    (sourcePortal targetPortal : Portal)
    (sg tg : List (String × PropertyGroup)) (spd tpd : List (String × ModelProperty))
    (n m : String) :
    (hasKey sg n = true → hasKey tg n = true →
      syncPropertiesOnMaps env objectType sourcePortal targetPortal sg tg spd tpd =
        syncPropertiesOnMaps env objectType sourcePortal targetPortal
          (removeKey sg n) (removeKey tg n) spd tpd) ∧
    (hasKey spd m = true → hasKey tpd m = true →
      syncPropertiesOnMaps env objectType sourcePortal targetPortal sg tg spd tpd =
        syncPropertiesOnMaps env objectType sourcePortal targetPortal
          sg tg (removeKey spd m) (removeKey tpd m)) := by
  constructor
  · intro hsg htg
    rw [syncPropertiesOnMaps_eq, syncPropertiesOnMaps_eq]
    have e1 : (sg.map (forwardGroupEm env objectType tg objectType sourcePortal targetPortal)).flatten
        = ((removeKey sg n).map
            (forwardGroupEm env objectType (removeKey tg n) objectType sourcePortal targetPortal)).flatten :=
      flatten_map_removeKey_eq n _ _ sg
        (fun kv _ he => forwardGroupEm_present env objectType tg objectType
          sourcePortal targetPortal kv (by rw [he]; exact htg))
        (fun kv _ hne => forwardGroupEm_congr env objectType tg (removeKey tg n)
          objectType sourcePortal targetPortal kv ((hasKey_removeKey tg n kv.1 hne).symm))
    have e2 : (tg.map (reverseGroupEm sg objectType sourcePortal targetPortal)).flatten
        = ((removeKey tg n).map
            (reverseGroupEm (removeKey sg n) objectType sourcePortal targetPortal)).flatten :=
      flatten_map_removeKey_eq n _ _ tg
        (fun kv _ he => reverseGroupEm_present sg objectType
          sourcePortal targetPortal kv (by rw [he]; exact hsg))
        (fun kv _ hne => reverseGroupEm_congr sg (removeKey sg n)
          objectType sourcePortal targetPortal kv ((hasKey_removeKey sg n kv.1 hne).symm))
    have e5 : (sg.map (forwardGroupEc objectType tg)).flatten
        = ((removeKey sg n).map (forwardGroupEc objectType (removeKey tg n))).flatten :=
      flatten_map_removeKey_eq n _ _ sg
        (fun kv _ he => forwardGroupEc_present objectType tg kv (by rw [he]; exact htg))
        (fun kv _ hne => forwardGroupEc_congr objectType tg (removeKey tg n) kv
          ((hasKey_removeKey tg n kv.1 hne).symm))
    rw [e1, e2, e5]
  · intro hsp htp
    rw [syncPropertiesOnMaps_eq, syncPropertiesOnMaps_eq]
    have e3 : (spd.map (forwardPropertyEm env objectType tpd objectType sourcePortal targetPortal)).flatten
        = ((removeKey spd m).map
            (forwardPropertyEm env objectType (removeKey tpd m) objectType sourcePortal targetPortal)).flatten :=
      flatten_map_removeKey_eq m _ _ spd
        (fun kv _ he => forwardPropertyEm_present env objectType tpd objectType
          sourcePortal targetPortal kv (by rw [he]; exact htp))
        (fun kv _ hne => forwardPropertyEm_congr env objectType tpd (removeKey tpd m)
          objectType sourcePortal targetPortal kv ((hasKey_removeKey tpd m kv.1 hne).symm))
    have e4 : (tpd.map (reversePropertyEm spd objectType sourcePortal targetPortal)).flatten
        = ((removeKey tpd m).map
            (reversePropertyEm (removeKey spd m) objectType sourcePortal targetPortal)).flatten :=
      flatten_map_removeKey_eq m _ _ tpd
        (fun kv _ he => reversePropertyEm_present spd objectType
          sourcePortal targetPortal kv (by rw [he]; exact hsp))
        (fun kv _ hne => reversePropertyEm_congr spd (removeKey spd m)
          objectType sourcePortal targetPortal kv ((hasKey_removeKey spd m kv.1 hne).symm))
    have e6 : (spd.map (forwardPropertyEc objectType tpd)).flatten
        = ((removeKey spd m).map (forwardPropertyEc objectType (removeKey tpd m))).flatten :=
      flatten_map_removeKey_eq m _ _ spd
        (fun kv _ he => forwardPropertyEc_present objectType tpd kv (by rw [he]; exact htp))
        (fun kv _ hne => forwardPropertyEc_congr objectType tpd (removeKey tpd m) kv
          ((hasKey_removeKey tpd m kv.1 hne).symm))
    rw [e3, e4, e6]

theorem claim_C5_witness :
    hasKey [("a", groupA)] "a" = true ∧ hasKey [("a", groupC)] "a" = true ∧
    hasKey [("p1", propP1)] "p1" = true ∧ hasKey [("p1", propP3)] "p1" = true ∧
    (syncPropertiesOnMaps envFailAll "contact" portalA portalB
        [("a", groupA)] [("a", groupC)] [("p1", propP1)] [("p1", propP3)] =
      syncPropertiesOnMaps envFailAll "contact" portalA portalB
        (removeKey [("a", groupA)] "a") (removeKey [("a", groupC)] "a")
        [("p1", propP1)] [("p1", propP3)]) ∧
    (syncPropertiesOnMaps envFailAll "contact" portalA portalB
        [("a", groupA)] [("a", groupC)] [("p1", propP1)] [("p1", propP3)] =
      syncPropertiesOnMaps envFailAll "contact" portalA portalB
        [("a", groupA)] [("a", groupC)]
        (removeKey [("p1", propP1)] "p1") (removeKey [("p1", propP3)] "p1")) :=
  ⟨by decide, by decide, by decide, by decide,
    (claim_C5 envFailAll "contact" portalA portalB
      [("a", groupA)] [("a", groupC)] [("p1", propP1)] [("p1", propP3)] "a" "p1").1
      (by decide) (by decide),
    (claim_C5 envFailAll "contact" portalA portalB
      [("a", groupA)] [("a", groupC)] [("p1", propP1)] [("p1", propP3)] "a" "p1").2
      (by decide) (by decide)⟩

theorem forwardGroupEm_length (env : HubSpotEnv) (objectType : String)
    (tg : List (String × PropertyGroup)) (ot : String) (sp tp : Portal)
    (kv : String × PropertyGroup) :
    (forwardGroupEm env objectType tg ot sp tp kv).length =
      (forwardGroupEm envAllOk objectType tg ot sp tp kv).length +
        ((forwardGroupEc objectType tg kv).filter (callFails env)).length := by
  unfold forwardGroupEm forwardGroupEc
  by_cases h1 : pyStartswith kv.1 "hs_" = true
  · simp [h1]
  · by_cases h2 : hasKey tg kv.1 = true
    · simp [h1, h2]
    · cases h3 : env.createPropertyGroupResult objectType (propertyGroupCreateOf kv.2) with
      | none => simp [h1, h2, h3, envAllOk, callFails, List.filter]
      | some e => simp [h1, h2, h3, envAllOk, callFails, List.filter]

theorem forwardPropertyEm_length (env : HubSpotEnv) (objectType : String)
    (tg : List (String × ModelProperty)) (ot : String) (sp tp : Portal)
    (kv : String × ModelProperty) :
    (forwardPropertyEm env objectType tg ot sp tp kv).length =
      (forwardPropertyEm envAllOk objectType tg ot sp tp kv).length +
        ((forwardPropertyEc objectType tg kv).filter (callFails env)).length := by
  unfold forwardPropertyEm forwardPropertyEc
  by_cases h1 : pyStartswith kv.1 "hs_" = true
  · simp [h1]
  · by_cases h2 : hasKey tg kv.1 = true
    · simp [h1, h2]
    · by_cases h4 : kv.2.calculated = true
      · simp [h1, h2, h4]
      · cases h3 : env.createPropertyResult objectType (propertyCreateOf kv.2) with
        | none => simp [h1, h2, h4, h3, envAllOk, callFails, List.filter]
        | some e => simp [h1, h2, h4, h3, envAllOk, callFails, List.filter]

/-- C3: `syncProperties` is a total function whose control flow does not
depend on creation failures — the sequence of creation calls it issues is
the same under any two environments — and every failing creation call is
converted into exactly one extra report entry: the report length under any
environment is the report length of the all-success run plus the number of
failing calls.  A single item's failure therefore never aborts the run or
suppresses later processing. -/
theorem claim_C3 (env env' : HubSpotEnv) (objectType : String)
    (sourcePortal targetPortal : Portal)
    (sourcePropertyGroupResults : List PropertyGroup)
    (sourcePropertyResults : List ModelProperty)
    (targetPropertyGroupResults : List PropertyGroup)
    (targetPropertyResults : List ModelProperty) :
    (syncProperties env objectType sourcePortal targetPortal
        sourcePropertyGroupResults sourcePropertyResults
        targetPropertyGroupResults targetPropertyResults).apiCalls =
      (syncProperties env' objectType sourcePortal targetPortal
        sourcePropertyGroupResults sourcePropertyResults
        targetPropertyGroupResults targetPropertyResults).apiCalls ∧
    (syncProperties env objectType sourcePortal targetPortal
        sourcePropertyGroupResults sourcePropertyResults
        targetPropertyGroupResults targetPropertyResults).resultMessages.messages.length =
      (syncProperties envAllOk objectType sourcePortal targetPortal
        sourcePropertyGroupResults sourcePropertyResults
        targetPropertyGroupResults targetPropertyResults).resultMessages.messages.length +
      ((syncProperties env objectType sourcePortal targetPortal
          sourcePropertyGroupResults sourcePropertyResults
          targetPropertyGroupResults targetPropertyResults).apiCalls.filter
        (callFails env)).length := by
  unfold syncProperties
  simp only [syncPropertiesOnMaps_eq]
  constructor
  · trivial
  · simp only [List.length_append, List.filter_append]
    have hg := flatten_length_add
      (forwardGroupEm env objectType (byName PropertyGroup.name targetPropertyGroupResults)
        objectType sourcePortal targetPortal)
      (forwardGroupEm envAllOk objectType (byName PropertyGroup.name targetPropertyGroupResults)
        objectType sourcePortal targetPortal)
      (forwardGroupEc objectType (byName PropertyGroup.name targetPropertyGroupResults))
      (callFails env)
      (fun kv => forwardGroupEm_length env objectType
        (byName PropertyGroup.name targetPropertyGroupResults)
        objectType sourcePortal targetPortal kv)
      (byName PropertyGroup.name sourcePropertyGroupResults)
    have hp := flatten_length_add
      (forwardPropertyEm env objectType (byName ModelProperty.name targetPropertyResults)
        objectType sourcePortal targetPortal)
      (forwardPropertyEm envAllOk objectType (byName ModelProperty.name targetPropertyResults)
        objectType sourcePortal targetPortal)
      (forwardPropertyEc objectType (byName ModelProperty.name targetPropertyResults))
      (callFails env)
      (fun kv => forwardPropertyEm_length env objectType
        (byName ModelProperty.name targetPropertyResults)
        objectType sourcePortal targetPortal kv)
      (byName ModelProperty.name sourcePropertyResults)
    omega

/-- C9: one run of `syncProperties` produces exactly the report of the
forward group pass, then the reverse group pass, then the forward property
pass, then the reverse property pass — each pass taken standalone from a
fresh report collector, iterating its name-indexed mapping in the
remote-supplied (insertion) order.  Groups are therefore always processed
before properties and, within each kind, the forward pass before the
reverse pass, so every group-related report entry precedes every
property-related one. -/
theorem claim_C9 (env : HubSpotEnv) (objectType : String)
    (sourcePortal targetPortal : Portal)
    (sourcePropertyGroupResults : List PropertyGroup)
    (sourcePropertyResults : List ModelProperty)
    (targetPropertyGroupResults : List PropertyGroup)
    (targetPropertyResults : List ModelProperty) :
    (syncProperties env objectType sourcePortal targetPortal
        sourcePropertyGroupResults sourcePropertyResults
        targetPropertyGroupResults targetPropertyResults).resultMessages.messages =
      (groupsForwardPass env targetPortal objectType
          (byName PropertyGroup.name targetPropertyGroupResults)
          ⟨ResultMessages.init objectType sourcePortal targetPortal, []⟩
          (byName PropertyGroup.name sourcePropertyGroupResults)).resultMessages.messages ++
      ((groupsReversePass (byName PropertyGroup.name sourcePropertyGroupResults)
          ⟨ResultMessages.init objectType sourcePortal targetPortal, []⟩
          (byName PropertyGroup.name targetPropertyGroupResults)).resultMessages.messages ++
      ((propertiesForwardPass env targetPortal objectType
          (byName ModelProperty.name targetPropertyResults)
          ⟨ResultMessages.init objectType sourcePortal targetPortal, []⟩
          (byName ModelProperty.name sourcePropertyResults)).resultMessages.messages ++
      (propertiesReversePass (byName ModelProperty.name sourcePropertyResults)
          ⟨ResultMessages.init objectType sourcePortal targetPortal, []⟩
          (byName ModelProperty.name targetPropertyResults)).resultMessages.messages)) := by
  unfold syncProperties
  simp only [ResultMessages.init, syncPropertiesOnMaps_eq, groupsForwardPass_eq,
    groupsReversePass_eq, propertiesForwardPass_eq, propertiesReversePass_eq,
    List.nil_append]

theorem forwardGroupEm_mem {env : HubSpotEnv} {objectType : String}
    {tg : List (String × PropertyGroup)} {ot : String} {sp tp : Portal}
    {kv : String × PropertyGroup} {s : String}
    (h : s ∈ forwardGroupEm env objectType tg ot sp tp kv) :
    ∃ raw, s = formatMessage ot sp tp raw := by
  unfold forwardGroupEm at h
  by_cases h1 : pyStartswith kv.1 "hs_" = true
  · simp [h1] at h
  · by_cases h2 : hasKey tg kv.1 = true
    · simp [h1, h2] at h
    · cases h3 : env.createPropertyGroupResult objectType (propertyGroupCreateOf kv.2) with
      | none => simp [h1, h2, h3] at h
      | some e =>
          simp [h1, h2, h3] at h
          exact ⟨_, h⟩

theorem reverseGroupEm_mem {sg : List (String × PropertyGroup)} {ot : String}
    {sp tp : Portal} {kv : String × PropertyGroup} {s : String}
    (h : s ∈ reverseGroupEm sg ot sp tp kv) :
    ∃ raw, s = formatMessage ot sp tp raw := by
  unfold reverseGroupEm at h
  by_cases h1 : pyStartswith kv.1 "hs_" = true
  · simp [h1] at h
  · by_cases h2 : hasKey sg kv.1 = true
    · simp [h1, h2] at h
    · simp [h1, h2] at h
      exact ⟨_, h⟩

theorem forwardPropertyEm_mem {env : HubSpotEnv} {objectType : String}
    {tg : List (String × ModelProperty)} {ot : String} {sp tp : Portal}
    {kv : String × ModelProperty} {s : String}
    (h : s ∈ forwardPropertyEm env objectType tg ot sp tp kv) :
    ∃ raw, s = formatMessage ot sp tp raw := by
  unfold forwardPropertyEm at h
  by_cases h1 : pyStartswith kv.1 "hs_" = true
  · simp [h1] at h
  · by_cases h2 : hasKey tg kv.1 = true
    · simp [h1, h2] at h
    · by_cases h4 : kv.2.calculated = true
      · simp [h1, h2, h4] at h
        exact ⟨_, h⟩
      · cases h3 : env.createPropertyResult objectType (propertyCreateOf kv.2) with
        | none => simp [h1, h2, h4, h3] at h
        | some e =>
            simp [h1, h2, h4, h3] at h
            exact ⟨_, h⟩

theorem reversePropertyEm_mem {sg : List (String × ModelProperty)} {ot : String}
    {sp tp : Portal} {kv : String × ModelProperty} {s : String}
    (h : s ∈ reversePropertyEm sg ot sp tp kv) :
    ∃ raw, s = formatMessage ot sp tp raw := by
  unfold reversePropertyEm at h
  by_cases h1 : pyStartswith kv.1 "hs_" = true
  · simp [h1] at h
  · by_cases h2 : hasKey sg kv.1 = true
    · simp [h1, h2] at h
    · simp [h1, h2] at h
      exact ⟨_, h⟩

/-- C10: every entry of the report returned by `syncProperties` carries the
run's scope decoration: it is the string
`<source name>-><target name> (<object type>): ` followed by the entry's
message text.  No entry is ever stored undecorated. -/
theorem claim_C10 (env : HubSpotEnv) (objectType : String)
    (sourcePortal targetPortal : Portal)
    (sourcePropertyGroupResults : List PropertyGroup)
    (sourcePropertyResults : List ModelProperty)
    (targetPropertyGroupResults : List PropertyGroup)
    (targetPropertyResults : List ModelProperty) (m : String)
    (hm : m ∈ (syncProperties env objectType sourcePortal targetPortal
        sourcePropertyGroupResults sourcePropertyResults
        targetPropertyGroupResults targetPropertyResults).resultMessages.messages) :
    ∃ raw, m = sourcePortal.name ++ "->" ++ targetPortal.name ++ " (" ++ objectType
        ++ "): " ++ raw := by
  unfold syncProperties at hm
  rw [syncPropertiesOnMaps_eq] at hm
  simp only [List.mem_append, List.mem_flatten, List.mem_map] at hm
  have hfmt : ∀ raw, formatMessage objectType sourcePortal targetPortal raw =
      sourcePortal.name ++ "->" ++ targetPortal.name ++ " (" ++ objectType
        ++ "): " ++ raw := fun _ => rfl
  rcases hm with h | h | h | h
  · obtain ⟨l, ⟨kv, _, he⟩, hml⟩ := h
    obtain ⟨raw, hr⟩ := forwardGroupEm_mem (he ▸ hml)
    exact ⟨raw, by rw [hr, hfmt]⟩
  · obtain ⟨l, ⟨kv, _, he⟩, hml⟩ := h
    obtain ⟨raw, hr⟩ := reverseGroupEm_mem (he ▸ hml)
    exact ⟨raw, by rw [hr, hfmt]⟩
  · obtain ⟨l, ⟨kv, _, he⟩, hml⟩ := h
    obtain ⟨raw, hr⟩ := forwardPropertyEm_mem (he ▸ hml)
    exact ⟨raw, by rw [hr, hfmt]⟩
  · obtain ⟨l, ⟨kv, _, he⟩, hml⟩ := h
    obtain ⟨raw, hr⟩ := reversePropertyEm_mem (he ▸ hml)
    exact ⟨raw, by rw [hr, hfmt]⟩

theorem claim_C10_witness :
    ("portal1->portal2 (contact): property group c is only in target - delete it manually or sync other way"
        ∈ (syncProperties envAllOk "contact" portalA portalB [] [] [groupC]
            []).resultMessages.messages) ∧
    ∃ raw,
      "portal1->portal2 (contact): property group c is only in target - delete it manually or sync other way"
        = portalA.name ++ "->" ++ portalB.name ++ " (" ++ "contact" ++ "): " ++ raw :=
  ⟨by decide,
    claim_C10 envAllOk "contact" portalA portalB [] [] [groupC] [] _ (by decide)⟩

theorem mem_of_lookup_eq_some {α : Type} {d : List (String × α)} {n : String} {v : α}
    (h : List.lookup n d = some v) : (n, v) ∈ d := by
  induction d with
  | nil => simp [List.lookup] at h
  | cons p d ih =>
      obtain ⟨k, b⟩ := p
      by_cases hk : n = k
      · have hb : (n == k) = true := by simpa using hk
        simp only [List.lookup, hb] at h
        subst hk
        obtain rfl : b = v := by simpa using h
        exact List.mem_cons_self _ _
      · have hb : (n == k) = false := by simpa using hk
        simp only [List.lookup, hb] at h
        exact List.mem_cons_of_mem _ (ih h)

/-- C1 (amended): a non-reserved group name `n` present in the source
mapping and absent from the target mapping contributes exactly one creation
call for the stored group, and — when the environment fails that call with
detail `e` — exactly one report entry, namely the one holding the group's
name and `e`; dropping the entry from the source mapping removes exactly
that call and that entry and changes nothing else.  The same holds for a
property name `m` provided the stored property is not calculated (the
amendment: a calculated property is never submitted, see C6). -/
theorem claim_C1_amended (env : HubSpotEnv) (objectType : String)
    (sourcePortal targetPortal : Portal)
    (sg tg : List (String × PropertyGroup)) (spd tpd : List (String × ModelProperty))
    (n : String) (g : PropertyGroup) (m : String) (q : ModelProperty) :
    (NodupKeys sg → List.lookup n sg = some g →
      pyStartswith n "hs_" = false → hasKey tg n = false →
      ∃ A B CA CB,
        (syncPropertiesOnMaps env objectType sourcePortal targetPortal
            sg tg spd tpd).apiCalls =
          CA ++ ApiCall.createPropertyGroup objectType (propertyGroupCreateOf g) :: CB ∧
        (syncPropertiesOnMaps env objectType sourcePortal targetPortal
            (removeKey sg n) tg spd tpd).apiCalls = CA ++ CB ∧
        (syncPropertiesOnMaps env objectType sourcePortal targetPortal
            sg tg spd tpd).resultMessages.messages =
          A ++ (match env.createPropertyGroupResult objectType (propertyGroupCreateOf g) with
            | none => []
            | some e => [formatMessage objectType sourcePortal targetPortal
                ("Failed creating new property group " ++ g.name ++ ": " ++ e)]) ++ B ∧
        (syncPropertiesOnMaps env objectType sourcePortal targetPortal
            (removeKey sg n) tg spd tpd).resultMessages.messages = A ++ B) ∧
    (NodupKeys spd → List.lookup m spd = some q → q.calculated = false →
      pyStartswith m "hs_" = false → hasKey tpd m = false →
      ∃ A B CA CB,
        (syncPropertiesOnMaps env objectType sourcePortal targetPortal
            sg tg spd tpd).apiCalls =
          CA ++ ApiCall.createProperty objectType (propertyCreateOf q) :: CB ∧
        (syncPropertiesOnMaps env objectType sourcePortal targetPortal
            sg tg (removeKey spd m) tpd).apiCalls = CA ++ CB ∧
        (syncPropertiesOnMaps env objectType sourcePortal targetPortal
            sg tg spd tpd).resultMessages.messages =
          A ++ (match env.createPropertyResult objectType (propertyCreateOf q) with
            | none => []
            | some e => [formatMessage objectType sourcePortal targetPortal
                ("Failed creating new property  " ++ q.name ++ ": " ++ e)]) ++ B ∧
        (syncPropertiesOnMaps env objectType sourcePortal targetPortal
            sg tg (removeKey spd m) tpd).resultMessages.messages = A ++ B) := by
  constructor
  · intro hnd hlk hres htabs
    have hk : hasKey sg n = true := by
      rw [hasKey, List.any_eq_true]
      exact ⟨(n, g), mem_of_lookup_eq_some hlk, by simp⟩
    obtain ⟨L1, v, L2, hd, hL1, hL2, hrk, hlk2⟩ := exists_split_of_hasKey hnd hk
    have hv : v = g := by
      rw [hlk2] at hlk
      exact Option.some.inj hlk
    subst hv
    have hem : forwardGroupEm env objectType tg objectType sourcePortal targetPortal (n, v)
        = (match env.createPropertyGroupResult objectType (propertyGroupCreateOf v) with
          | none => []
          | some e => [formatMessage objectType sourcePortal targetPortal
              ("Failed creating new property group " ++ v.name ++ ": " ++ e)]) := by
      unfold forwardGroupEm
      simp [hres, htabs]
    have hec : forwardGroupEc objectType tg (n, v)
        = [ApiCall.createPropertyGroup objectType (propertyGroupCreateOf v)] := by
      unfold forwardGroupEc
      simp [hres, htabs]
    have hrev : (tg.map (reverseGroupEm (removeKey sg n) objectType sourcePortal targetPortal)).flatten
        = (tg.map (reverseGroupEm sg objectType sourcePortal targetPortal)).flatten :=
      flatten_map_congr (fun kv hm =>
        reverseGroupEm_congr (removeKey sg n) sg objectType sourcePortal targetPortal kv
          (hasKey_removeKey sg n kv.1 ((hasKey_eq_false_iff.mp htabs) kv hm)))
    simp only [syncPropertiesOnMaps_eq]
    refine ⟨((L1.map (forwardGroupEm env objectType tg objectType sourcePortal targetPortal)).flatten),
      ((L2.map (forwardGroupEm env objectType tg objectType sourcePortal targetPortal)).flatten
        ++ ((tg.map (reverseGroupEm sg objectType sourcePortal targetPortal)).flatten
        ++ ((spd.map (forwardPropertyEm env objectType tpd objectType sourcePortal targetPortal)).flatten
        ++ (tpd.map (reversePropertyEm spd objectType sourcePortal targetPortal)).flatten))),
      ((L1.map (forwardGroupEc objectType tg)).flatten),
      ((L2.map (forwardGroupEc objectType tg)).flatten
        ++ (spd.map (forwardPropertyEc objectType tpd)).flatten), ?_, ?_, ?_, ?_⟩
    · rw [hd]
      simp [List.map_append, List.flatten_append, hec, List.append_assoc]
    · rw [hrk]
      simp [List.map_append, List.flatten_append, List.append_assoc]
    · rw [hd]
      simp only [List.map_append, List.flatten_append, List.map_cons, List.flatten_cons, hem]
      simp [List.append_assoc]
    · rw [hrev, hrk]
      simp [List.map_append, List.flatten_append, List.append_assoc]
  · intro hnd hlk hcalc hres htabs
    have hk : hasKey spd m = true := by
      rw [hasKey, List.any_eq_true]
      exact ⟨(m, q), mem_of_lookup_eq_some hlk, by simp⟩
    obtain ⟨L1, v, L2, hd, hL1, hL2, hrk, hlk2⟩ := exists_split_of_hasKey hnd hk
    have hv : v = q := by
      rw [hlk2] at hlk
      exact Option.some.inj hlk
    subst hv
    have hem : forwardPropertyEm env objectType tpd objectType sourcePortal targetPortal (m, v)
        = (match env.createPropertyResult objectType (propertyCreateOf v) with
          | none => []
          | some e => [formatMessage objectType sourcePortal targetPortal
              ("Failed creating new property  " ++ v.name ++ ": " ++ e)]) := by
      unfold forwardPropertyEm
      simp [hres, htabs, hcalc]
    have hec : forwardPropertyEc objectType tpd (m, v)
        = [ApiCall.createProperty objectType (propertyCreateOf v)] := by
      unfold forwardPropertyEc
      simp [hres, htabs, hcalc]
    have hrev : (tpd.map (reversePropertyEm (removeKey spd m) objectType sourcePortal targetPortal)).flatten
        = (tpd.map (reversePropertyEm spd objectType sourcePortal targetPortal)).flatten :=
      flatten_map_congr (fun kv hm =>
        reversePropertyEm_congr (removeKey spd m) spd objectType sourcePortal targetPortal kv
          (hasKey_removeKey spd m kv.1 ((hasKey_eq_false_iff.mp htabs) kv hm)))
    simp only [syncPropertiesOnMaps_eq]
    refine ⟨((sg.map (forwardGroupEm env objectType tg objectType sourcePortal targetPortal)).flatten
        ++ ((tg.map (reverseGroupEm sg objectType sourcePortal targetPortal)).flatten
        ++ (L1.map (forwardPropertyEm env objectType tpd objectType sourcePortal targetPortal)).flatten)),
      ((L2.map (forwardPropertyEm env objectType tpd objectType sourcePortal targetPortal)).flatten
        ++ (tpd.map (reversePropertyEm spd objectType sourcePortal targetPortal)).flatten),
      ((sg.map (forwardGroupEc objectType tg)).flatten
        ++ (L1.map (forwardPropertyEc objectType tpd)).flatten),
      ((L2.map (forwardPropertyEc objectType tpd)).flatten), ?_, ?_, ?_, ?_⟩
    · rw [hd]
      simp [List.map_append, List.flatten_append, hec, List.append_assoc]
    · rw [hrk]
      simp [List.map_append, List.flatten_append, List.append_assoc]
    · rw [hd]
      simp only [List.map_append, List.flatten_append, List.map_cons, List.flatten_cons, hem]
      simp [List.append_assoc]
    · rw [hrev, hrk]
      simp [List.map_append, List.flatten_append, List.append_assoc]

/-- C1 as stated is false on the code: the calculated property `p2` is
present in the source mapping, not reserved, and absent from the target
mapping, yet the run issues no creation call at all for it — it only
appends the manual-creation report entry. -/
theorem claim_C1_counterexample :
    hasKey [("p2", propP2)] "p2" = true ∧
    pyStartswith "p2" "hs_" = false ∧
    hasKey ([] : List (String × ModelProperty)) "p2" = false ∧
    (syncPropertiesOnMaps envAllOk "contact" portalA portalB [] [] [("p2", propP2)]
        []).apiCalls = [] ∧
    (syncPropertiesOnMaps envAllOk "contact" portalA portalB [] [] [("p2", propP2)]
        []).resultMessages.messages =
      ["portal1->portal2 (contact): Skipped property p2: it is a calculated property, create it manually."] :=
  ⟨by decide, by decide, by decide, by decide, by decide⟩

theorem claim_C1_witness :
    (∃ A B CA CB,
      (syncPropertiesOnMaps envFailAll "contact" portalA portalB
          [("a", groupA)] [] [("p1", propP1)] []).apiCalls =
        CA ++ ApiCall.createPropertyGroup "contact" (propertyGroupCreateOf groupA) :: CB ∧
      (syncPropertiesOnMaps envFailAll "contact" portalA portalB
          (removeKey [("a", groupA)] "a") [] [("p1", propP1)] []).apiCalls = CA ++ CB ∧
      (syncPropertiesOnMaps envFailAll "contact" portalA portalB
          [("a", groupA)] [] [("p1", propP1)] []).resultMessages.messages =
        A ++ (match envFailAll.createPropertyGroupResult "contact" (propertyGroupCreateOf groupA) with
          | none => []
          | some e => [formatMessage "contact" portalA portalB
              ("Failed creating new property group " ++ groupA.name ++ ": " ++ e)]) ++ B ∧
      (syncPropertiesOnMaps envFailAll "contact" portalA portalB
          (removeKey [("a", groupA)] "a") [] [("p1", propP1)] []).resultMessages.messages
        = A ++ B) ∧
    (∃ A B CA CB,
      (syncPropertiesOnMaps envFailAll "contact" portalA portalB
          [("a", groupA)] [] [("p1", propP1)] []).apiCalls =
        CA ++ ApiCall.createProperty "contact" (propertyCreateOf propP1) :: CB ∧
      (syncPropertiesOnMaps envFailAll "contact" portalA portalB
          [("a", groupA)] [] (removeKey [("p1", propP1)] "p1") []).apiCalls = CA ++ CB ∧
      (syncPropertiesOnMaps envFailAll "contact" portalA portalB
          [("a", groupA)] [] [("p1", propP1)] []).resultMessages.messages =
        A ++ (match envFailAll.createPropertyResult "contact" (propertyCreateOf propP1) with
          | none => []
          | some e => [formatMessage "contact" portalA portalB
              ("Failed creating new property  " ++ propP1.name ++ ": " ++ e)]) ++ B ∧
      (syncPropertiesOnMaps envFailAll "contact" portalA portalB
          [("a", groupA)] [] (removeKey [("p1", propP1)] "p1") []).resultMessages.messages
        = A ++ B) :=
  ⟨(claim_C1_amended envFailAll "contact" portalA portalB
      [("a", groupA)] [] [("p1", propP1)] [] "a" groupA "p1" propP1).1
      (by unfold NodupKeys; decide) (by decide) (by decide) (by decide),
    (claim_C1_amended envFailAll "contact" portalA portalB
      [("a", groupA)] [] [("p1", propP1)] [] "a" groupA "p1" propP1).2
      (by unfold NodupKeys; decide) (by decide) (by decide) (by decide) (by decide)⟩

set_option maxRecDepth 8192 in
/-- C2 as stated is false on the code: for the target-only, non-reserved
group `c` the run appends an entry, but the entry does not read
"property group c exists only on target — delete manually or sync the other
way"; the actual entry is the scope-decorated
"property group c is only in target - delete it manually or sync other way",
and the claimed wording occurs nowhere in the report. -/
theorem claim_C2_counterexample :
    (syncProperties envAllOk "contact" portalA portalB [] [] [groupC]
        []).resultMessages.messages =
      ["portal1->portal2 (contact): property group c is only in target - delete it manually or sync other way"] ∧
    (∀ x ∈ (syncProperties envAllOk "contact" portalA portalB [] [] [groupC]
        []).resultMessages.messages,
      ¬ ("property group c exists only on target — delete manually or sync the other way").data
        <:+: x.data) :=
  ⟨by decide, by decide⟩

/-- C2 (amended): a non-reserved name present in the target mapping and
absent from the source mapping contributes exactly one report entry — the
scope-decorated "<kind> <name> is only in target - delete it manually or
sync other way" — and no creation call: dropping the entry from the target
mapping removes exactly that entry and leaves the creation-call log
unchanged.  Stated for a group name `n` and a property name `m`. -/
theorem claim_C2_amended (env : HubSpotEnv) (objectType : String)
    (sourcePortal targetPortal : Portal)
    (sg tg : List (String × PropertyGroup)) (spd tpd : List (String × ModelProperty))
    (n m : String) :
    (NodupKeys tg → hasKey tg n = true → pyStartswith n "hs_" = false →
      hasKey sg n = false →
      ∃ A B,
        (syncPropertiesOnMaps env objectType sourcePortal targetPortal
            sg tg spd tpd).resultMessages.messages =
          A ++ formatMessage objectType sourcePortal targetPortal
            ("property group " ++ n ++ " is only in target - delete it manually or sync other way")
            :: B ∧
        (syncPropertiesOnMaps env objectType sourcePortal targetPortal
            sg (removeKey tg n) spd tpd).resultMessages.messages = A ++ B ∧
        (syncPropertiesOnMaps env objectType sourcePortal targetPortal
            sg tg spd tpd).apiCalls =
          (syncPropertiesOnMaps env objectType sourcePortal targetPortal
            sg (removeKey tg n) spd tpd).apiCalls) ∧
    (NodupKeys tpd → hasKey tpd m = true → pyStartswith m "hs_" = false →
      hasKey spd m = false →
      ∃ A B,
        (syncPropertiesOnMaps env objectType sourcePortal targetPortal
            sg tg spd tpd).resultMessages.messages =
          A ++ formatMessage objectType sourcePortal targetPortal
            ("property " ++ m ++ " is only in target - delete it manually or sync other way")
            :: B ∧
        (syncPropertiesOnMaps env objectType sourcePortal targetPortal
            sg tg spd (removeKey tpd m)).resultMessages.messages = A ++ B ∧
        (syncPropertiesOnMaps env objectType sourcePortal targetPortal
            sg tg spd tpd).apiCalls =
          (syncPropertiesOnMaps env objectType sourcePortal targetPortal
            sg tg spd (removeKey tpd m)).apiCalls) := by
  constructor
  · intro hnd hk hres hsabs
    obtain ⟨L1, v, L2, hd, hL1, hL2, hrk, hlk2⟩ := exists_split_of_hasKey hnd hk
    have hem : reverseGroupEm sg objectType sourcePortal targetPortal (n, v)
        = [formatMessage objectType sourcePortal targetPortal
            ("property group " ++ n ++ " is only in target - delete it manually or sync other way")] := by
      unfold reverseGroupEm
      simp [hres, hsabs]
    have hfwd : (sg.map (forwardGroupEm env objectType (removeKey tg n) objectType sourcePortal targetPortal)).flatten
        = (sg.map (forwardGroupEm env objectType tg objectType sourcePortal targetPortal)).flatten :=
      flatten_map_congr (fun kv hm =>
        forwardGroupEm_congr env objectType (removeKey tg n) tg objectType sourcePortal
          targetPortal kv
          (hasKey_removeKey tg n kv.1 ((hasKey_eq_false_iff.mp hsabs) kv hm)))
    have hfwdc : (sg.map (forwardGroupEc objectType (removeKey tg n))).flatten
        = (sg.map (forwardGroupEc objectType tg)).flatten :=
      flatten_map_congr (fun kv hm =>
        forwardGroupEc_congr objectType (removeKey tg n) tg kv
          (hasKey_removeKey tg n kv.1 ((hasKey_eq_false_iff.mp hsabs) kv hm)))
    simp only [syncPropertiesOnMaps_eq]
    refine ⟨((sg.map (forwardGroupEm env objectType tg objectType sourcePortal targetPortal)).flatten
        ++ (L1.map (reverseGroupEm sg objectType sourcePortal targetPortal)).flatten),
      ((L2.map (reverseGroupEm sg objectType sourcePortal targetPortal)).flatten
        ++ ((spd.map (forwardPropertyEm env objectType tpd objectType sourcePortal targetPortal)).flatten
        ++ (tpd.map (reversePropertyEm spd objectType sourcePortal targetPortal)).flatten)),
      ?_, ?_, ?_⟩
    · rw [hd]
      simp only [List.map_append, List.flatten_append, List.map_cons, List.flatten_cons, hem]
      simp [List.append_assoc]
    · rw [hfwd, hrk]
      simp [List.map_append, List.flatten_append, List.append_assoc]
    · rw [hfwdc]
  · intro hnd hk hres hsabs
    obtain ⟨L1, v, L2, hd, hL1, hL2, hrk, hlk2⟩ := exists_split_of_hasKey hnd hk
    have hem : reversePropertyEm spd objectType sourcePortal targetPortal (m, v)
        = [formatMessage objectType sourcePortal targetPortal
            ("property " ++ m ++ " is only in target - delete it manually or sync other way")] := by
      unfold reversePropertyEm
      simp [hres, hsabs]
    have hfwd : (spd.map (forwardPropertyEm env objectType (removeKey tpd m) objectType sourcePortal targetPortal)).flatten
        = (spd.map (forwardPropertyEm env objectType tpd objectType sourcePortal targetPortal)).flatten :=
      flatten_map_congr (fun kv hm =>
        forwardPropertyEm_congr env objectType (removeKey tpd m) tpd objectType sourcePortal
          targetPortal kv
          (hasKey_removeKey tpd m kv.1 ((hasKey_eq_false_iff.mp hsabs) kv hm)))
    have hfwdc : (spd.map (forwardPropertyEc objectType (removeKey tpd m))).flatten
        = (spd.map (forwardPropertyEc objectType tpd)).flatten :=
      flatten_map_congr (fun kv hm =>
        forwardPropertyEc_congr objectType (removeKey tpd m) tpd kv
          (hasKey_removeKey tpd m kv.1 ((hasKey_eq_false_iff.mp hsabs) kv hm)))
    simp only [syncPropertiesOnMaps_eq]
    refine ⟨((sg.map (forwardGroupEm env objectType tg objectType sourcePortal targetPortal)).flatten
        ++ ((tg.map (reverseGroupEm sg objectType sourcePortal targetPortal)).flatten
        ++ ((spd.map (forwardPropertyEm env objectType tpd objectType sourcePortal targetPortal)).flatten
        ++ (L1.map (reversePropertyEm spd objectType sourcePortal targetPortal)).flatten))),
      ((L2.map (reversePropertyEm spd objectType sourcePortal targetPortal)).flatten),
      ?_, ?_, ?_⟩
    · rw [hd]
      simp only [List.map_append, List.flatten_append, List.map_cons, List.flatten_cons, hem]
      simp [List.append_assoc]
    · rw [hfwd, hrk]
      simp [List.map_append, List.flatten_append, List.append_assoc]
    · rw [hfwdc]

theorem claim_C2_witness :
    (∃ A B,
      (syncPropertiesOnMaps envAllOk "contact" portalA portalB
          [] [("c", groupC)] [] [("p3", propP3)]).resultMessages.messages =
        A ++ formatMessage "contact" portalA portalB
          ("property group " ++ "c" ++ " is only in target - delete it manually or sync other way")
          :: B ∧
      (syncPropertiesOnMaps envAllOk "contact" portalA portalB
          [] (removeKey [("c", groupC)] "c") [] [("p3", propP3)]).resultMessages.messages
        = A ++ B ∧
      (syncPropertiesOnMaps envAllOk "contact" portalA portalB
          [] [("c", groupC)] [] [("p3", propP3)]).apiCalls =
        (syncPropertiesOnMaps envAllOk "contact" portalA portalB
          [] (removeKey [("c", groupC)] "c") [] [("p3", propP3)]).apiCalls) ∧
    (∃ A B,
      (syncPropertiesOnMaps envAllOk "contact" portalA portalB
          [] [("c", groupC)] [] [("p3", propP3)]).resultMessages.messages =
        A ++ formatMessage "contact" portalA portalB
          ("property " ++ "p3" ++ " is only in target - delete it manually or sync other way")
          :: B ∧
      (syncPropertiesOnMaps envAllOk "contact" portalA portalB
          [] [("c", groupC)] [] (removeKey [("p3", propP3)] "p3")).resultMessages.messages
        = A ++ B ∧
      (syncPropertiesOnMaps envAllOk "contact" portalA portalB
          [] [("c", groupC)] [] [("p3", propP3)]).apiCalls =
        (syncPropertiesOnMaps envAllOk "contact" portalA portalB
          [] [("c", groupC)] [] (removeKey [("p3", propP3)] "p3")).apiCalls) :=
  ⟨(claim_C2_amended envAllOk "contact" portalA portalB
      [] [("c", groupC)] [] [("p3", propP3)] "c" "p3").1
      (by unfold NodupKeys; decide) (by decide) (by decide) (by decide),
    (claim_C2_amended envAllOk "contact" portalA portalB
      [] [("c", groupC)] [] [("p3", propP3)] "c" "p3").2
      (by unfold NodupKeys; decide) (by decide) (by decide) (by decide)⟩

/-- C6: a source property marked calculated, not reserved, and absent from
the target mapping contributes exactly one report entry — the
scope-decorated "Skipped property <name>: it is a calculated property,
create it manually." — and no creation call (dropping it from the source
mapping removes exactly that entry and leaves the call log unchanged),
while any non-calculated, non-reserved source property absent from the
target in the same run is submitted for creation: its creation call occurs
in the run's call log. -/
theorem claim_C6 (env : HubSpotEnv) (objectType : String)
    (sourcePortal targetPortal : Portal)
    (sg tg : List (String × PropertyGroup)) (spd tpd : List (String × ModelProperty))
    (m : String) (q : ModelProperty) (m2 : String) (q2 : ModelProperty) :
    (NodupKeys spd → List.lookup m spd = some q → q.calculated = true →
      pyStartswith m "hs_" = false → hasKey tpd m = false →
      ∃ A B,
        (syncPropertiesOnMaps env objectType sourcePortal targetPortal
            sg tg spd tpd).resultMessages.messages =
          A ++ formatMessage objectType sourcePortal targetPortal
            ("Skipped property " ++ q.name ++ ": it is a calculated property, create it manually.")
            :: B ∧
        (syncPropertiesOnMaps env objectType sourcePortal targetPortal
            sg tg (removeKey spd m) tpd).resultMessages.messages = A ++ B ∧
        (syncPropertiesOnMaps env objectType sourcePortal targetPortal
            sg tg spd tpd).apiCalls =
          (syncPropertiesOnMaps env objectType sourcePortal targetPortal
            sg tg (removeKey spd m) tpd).apiCalls) ∧
    (List.lookup m2 spd = some q2 → q2.calculated = false →
      pyStartswith m2 "hs_" = false → hasKey tpd m2 = false →
      ∃ CA CB,
        (syncPropertiesOnMaps env objectType sourcePortal targetPortal
            sg tg spd tpd).apiCalls =
          CA ++ ApiCall.createProperty objectType (propertyCreateOf q2) :: CB) := by
  constructor
  · intro hnd hlk hcalc hres htabs
    have hkk : hasKey spd m = true := by
      rw [hasKey, List.any_eq_true]
      exact ⟨(m, q), mem_of_lookup_eq_some hlk, by simp⟩
    obtain ⟨L1, v, L2, hd, hL1, hL2, hrk, hlk2⟩ := exists_split_of_hasKey hnd hkk
    have hv : v = q := by
      rw [hlk2] at hlk
      exact Option.some.inj hlk
    subst hv
    have hem : forwardPropertyEm env objectType tpd objectType sourcePortal targetPortal (m, v)
        = [formatMessage objectType sourcePortal targetPortal
            ("Skipped property " ++ v.name ++ ": it is a calculated property, create it manually.")] := by
      unfold forwardPropertyEm
      simp [hres, htabs, hcalc]
    have hec : forwardPropertyEc objectType tpd (m, v) = [] := by
      unfold forwardPropertyEc
      simp [hres, htabs, hcalc]
    have hrev : (tpd.map (reversePropertyEm (removeKey spd m) objectType sourcePortal targetPortal)).flatten
        = (tpd.map (reversePropertyEm spd objectType sourcePortal targetPortal)).flatten :=
      flatten_map_congr (fun kv hm =>
        reversePropertyEm_congr (removeKey spd m) spd objectType sourcePortal targetPortal kv
          (hasKey_removeKey spd m kv.1 ((hasKey_eq_false_iff.mp htabs) kv hm)))
    simp only [syncPropertiesOnMaps_eq]
    refine ⟨((sg.map (forwardGroupEm env objectType tg objectType sourcePortal targetPortal)).flatten
        ++ ((tg.map (reverseGroupEm sg objectType sourcePortal targetPortal)).flatten
        ++ (L1.map (forwardPropertyEm env objectType tpd objectType sourcePortal targetPortal)).flatten)),
      ((L2.map (forwardPropertyEm env objectType tpd objectType sourcePortal targetPortal)).flatten
        ++ (tpd.map (reversePropertyEm spd objectType sourcePortal targetPortal)).flatten),
      ?_, ?_, ?_⟩
    · rw [hd]
      simp only [List.map_append, List.flatten_append, List.map_cons, List.flatten_cons, hem]
      simp [List.append_assoc]
    · rw [hrev, hrk]
      simp [List.map_append, List.flatten_append, List.append_assoc]
    · rw [hrk, hd]
      simp [List.map_append, List.flatten_append, hec]
  · intro hlk hcalc hres htabs
    have hec2 : forwardPropertyEc objectType tpd (m2, q2)
        = [ApiCall.createProperty objectType (propertyCreateOf q2)] := by
      unfold forwardPropertyEc
      simp [hres, htabs, hcalc]
    have hmem : ApiCall.createProperty objectType (propertyCreateOf q2)
        ∈ (spd.map (forwardPropertyEc objectType tpd)).flatten := by
      rw [List.mem_flatten]
      refine ⟨forwardPropertyEc objectType tpd (m2, q2),
        List.mem_map_of_mem _ (mem_of_lookup_eq_some hlk), ?_⟩
      rw [hec2]
      exact List.mem_singleton_self _
    have hmem2 : ApiCall.createProperty objectType (propertyCreateOf q2)
        ∈ (syncPropertiesOnMaps env objectType sourcePortal targetPortal
            sg tg spd tpd).apiCalls := by
      simp only [syncPropertiesOnMaps_eq]
      exact List.mem_append.mpr (Or.inr hmem)
    exact List.append_of_mem hmem2

theorem claim_C6_witness :
    (∃ A B,
      (syncPropertiesOnMaps envAllOk "contact" portalA portalB
          [] [] [("p1", propP1), ("p2", propP2)] []).resultMessages.messages =
        A ++ formatMessage "contact" portalA portalB
          ("Skipped property " ++ propP2.name ++ ": it is a calculated property, create it manually.")
          :: B ∧
      (syncPropertiesOnMaps envAllOk "contact" portalA portalB
          [] [] (removeKey [("p1", propP1), ("p2", propP2)] "p2") []).resultMessages.messages
        = A ++ B ∧
      (syncPropertiesOnMaps envAllOk "contact" portalA portalB
          [] [] [("p1", propP1), ("p2", propP2)] []).apiCalls =
        (syncPropertiesOnMaps envAllOk "contact" portalA portalB
          [] [] (removeKey [("p1", propP1), ("p2", propP2)] "p2") []).apiCalls) ∧
    (∃ CA CB,
      (syncPropertiesOnMaps envAllOk "contact" portalA portalB
          [] [] [("p1", propP1), ("p2", propP2)] []).apiCalls =
        CA ++ ApiCall.createProperty "contact" (propertyCreateOf propP1) :: CB) :=
  ⟨(claim_C6 envAllOk "contact" portalA portalB
      [] [] [("p1", propP1), ("p2", propP2)] [] "p2" propP2 "p1" propP1).1
      (by unfold NodupKeys; decide) (by decide) (by decide) (by decide) (by decide),
    (claim_C6 envAllOk "contact" portalA portalB
      [] [] [("p1", propP1), ("p2", propP2)] [] "p2" propP2 "p1" propP1).2
      (by decide) (by decide) (by decide) (by decide)⟩
